import Mathlib

/-!
Verification development for the serial-link tool of piksi_tools.

The single source file, piksi_tools/serial_link.py, is glue around an
external SBP protocol library: it selects a byte transport, builds a
message handler, registers logging callbacks, optionally sends a reset
message, optionally arms a heartbeat watchdog, and then runs a foreground
session loop until a timeout, an interrupt, or receive-thread death.

Functions present in the source file (get_driver, get_logger,
get_append_logger, watchdog_alarm, main) are embedded directly from the
source. Components that the specification describes but that live in the
external library (Frame Decoder, Dispatch Table, Heartbeat Watchdog
internals) are modelled from the specification; their doc comments say so.
-/

/-- Message-type constants imported by the source file from the SBP
library (sbp.logging.SBP_MSG_PRINT, sbp.piksi.SBP_MSG_RESET,
sbp.system.SBP_MSG_HEARTBEAT). -/
def SBP_MSG_PRINT : Nat := 0x10

/-- Reset control message type, imported from sbp.piksi. -/
def SBP_MSG_RESET : Nat := 0xB2

/-- Heartbeat message type, imported from sbp.system. -/
def SBP_MSG_HEARTBEAT : Nat := 0xFFFF

/-- Transport drivers the source can construct: PySerialDriver(port, baud)
or PyFTDIDriver(baud). -/
inductive Driver : Type
  | pySerial (port : String) (baud : Nat)
  | pyFTDI (baud : Nat)
deriving DecidableEq

/-- Embedding of get_driver from serial_link.py: if use_ftdi then
PyFTDIDriver(baud) else PySerialDriver(port, baud). -/
def get_driver (use_ftdi : Bool) (port : String) (baud : Nat) : Driver :=
  if use_ftdi then Driver.pyFTDI baud else Driver.pySerial port baud

/-- File-open mode of a JSON logger: JSONLogger(filename) opens with its
default mode, JSONLogger(filename, "a", tags) opens in append mode. -/
inductive LogMode : Type
  | defaultMode
  | append
deriving DecidableEq

/-- Loggers the source can construct: NullLogger() or a JSONLogger with a
filename, a mode, and optional tags. -/
inductive Logger : Type
  | nullLogger
  | jsonLogger (filename : String) (mode : LogMode) (tags : Option String)
deriving DecidableEq

/-- Embedding of get_logger from serial_link.py: NullLogger() unless
use_log, then JSONLogger(filename) with the default mode and no tags. -/
def get_logger (use_log : Bool) (filename : String) : Logger :=
  if !use_log then Logger.nullLogger
  else Logger.jsonLogger filename LogMode.defaultMode none

/-- Embedding of get_append_logger from serial_link.py: the Python test
"if not filename" is true for both None and the empty string, giving
NullLogger(); otherwise JSONLogger(filename, "a", tags). -/
def get_append_logger (filename : Option String) (tags : Option String) : Logger :=
  match filename with
  | none => Logger.nullLogger
  | some f => if f = "" then Logger.nullLogger
              else Logger.jsonLogger f LogMode.append tags

/-- Modelled from the spec: the Logger contract persists each message to
durable storage, and a NullLogger persists nothing. The list of messages
a logger persists when fed a list of messages. -/
def Logger.persists : Logger → List Nat → List Nat
  | Logger.nullLogger, _ => []
  | Logger.jsonLogger _ _ _, ms => ms

/-- Side effects the watchdog alarm path can perform. enqueueCancel is the
polled cancellation request that the specification prescribes;
interruptMain is thread.interrupt_main(), which raises KeyboardInterrupt
asynchronously in the main thread. -/
inductive Effect : Type
  | writeStderr (s : String)
  | interruptMain
  | enqueueCancel
deriving DecidableEq

/-- Embedding of watchdog_alarm from serial_link.py: writes an error to
stderr, then calls thread.interrupt_main(). -/
def watchdog_alarm : List Effect :=
  [Effect.writeStderr "ERROR: Watchdog expired!", Effect.interruptMain]

/-- Reason the session loop in main terminates. -/
inductive ExitReason : Type
  | interrupted
  | timerExpired
  | threadDied
deriving DecidableEq

/-- Process exit status for each termination reason of main: the
KeyboardInterrupt handler and the thread-death branch call sys.exit(1);
breaking out on timer expiry falls off the end of main, exiting with 0. -/
def exitCode : ExitReason → Nat
  | ExitReason.interrupted => 1
  | ExitReason.timerExpired => 0
  | ExitReason.threadDied => 1

/-- One observation of the environment during an iteration of the session
loop in main: whether a KeyboardInterrupt has been delivered, the current
clock value, and whether link.is_alive() holds. -/
structure Obs : Type where
  interrupted : Bool
  now : Nat
  alive : Bool
deriving DecidableEq

/-- Embedding of one iteration of the while loop in main. A delivered
KeyboardInterrupt preempts the iteration (the except handler wraps the
whole loop). Otherwise the loop first tests "timeout is None or
time.time() < expire": if the deadline has passed it breaks (timer
expired); otherwise it sleeps, then tests "not link.is_alive()" and exits
on thread death; otherwise the loop continues (none). -/
def sessionStep (expire : Option Nat) (o : Obs) : Option ExitReason :=
  if o.interrupted then some ExitReason.interrupted
  else
    match expire with
    | some e =>
      if o.now < e then
        if !o.alive then some ExitReason.threadDied else none
      else some ExitReason.timerExpired
    | none =>
      if !o.alive then some ExitReason.threadDied else none

/-- Embedding of the while loop in main, run over a finite sequence of
environment observations: the first iteration whose step exits determines
the termination reason; none if the observations run out first. -/
def sessionRun (expire : Option Nat) : List Obs → Option ExitReason
  | [] => none
  | o :: rest =>
    match sessionStep expire o with
    | some r => some r
    | none => sessionRun expire rest

/-- Callback targets main registers on the handler: the printer for
SBP_MSG_PRINT, the two loggers as wildcard callbacks, and a Watchdog for
SBP_MSG_HEARTBEAT. -/
inductive CallbackTarget : Type
  | printerCb
  | loggerCb (l : Logger)
  | appendLoggerCb (l : Logger)
  | watchdogCb (interval : Nat)
deriving DecidableEq

/-- Actions main performs, in order, before and including entering its
foreground session loop. startHandler is the entry of the Handler context
manager, which launches the background receive loop (modelled from the
spec: the Link Handler start launches the background receive loop, and
the handler is entered as a context manager before anything below it). -/
inductive MainAction : Type
  | openDriver (d : Driver)
  | startHandler
  | openLogger (l : Logger)
  | openAppendLogger (l : Logger)
  | addCallback (target : CallbackTarget) (msgType : Option Nat)
  | send (msgType : Nat) (payload : List Nat)
  | enterSessionLoop
deriving DecidableEq

/-- Configuration main extracts from its parsed arguments. -/
structure Config : Type where
  ftdi : Bool
  port : String
  baud : Nat
  log : Bool
  logFilename : String
  appendLogFilename : Option String
  tags : Option String
  reset : Bool
  watchdog : Option Nat
  timeout : Option Nat

/-- Embedding of the body of main from serial_link.py up to the while
loop: open the driver, enter the Handler context, open both loggers,
register the printer on SBP_MSG_PRINT and both loggers as wildcards, send
a reset message with empty payload if args.reset, arm a Watchdog on
SBP_MSG_HEARTBEAT if a watchdog interval was given, then enter the
session loop. -/
def mainTrace (c : Config) : List MainAction :=
  [MainAction.openDriver (get_driver c.ftdi c.port c.baud),
   MainAction.startHandler,
   MainAction.openLogger (get_logger c.log c.logFilename),
   MainAction.openAppendLogger (get_append_logger c.appendLogFilename c.tags),
   MainAction.addCallback CallbackTarget.printerCb (some SBP_MSG_PRINT),
   MainAction.addCallback (CallbackTarget.loggerCb (get_logger c.log c.logFilename)) none,
   MainAction.addCallback
     (CallbackTarget.appendLoggerCb (get_append_logger c.appendLogFilename c.tags)) none]
  ++ (if c.reset then [MainAction.send SBP_MSG_RESET []] else [])
  ++ (match c.watchdog with
      | some w => [MainAction.addCallback (CallbackTarget.watchdogCb w) (some SBP_MSG_HEARTBEAT)]
      | none => [])
  ++ [MainAction.enterSessionLoop]

/-- Whether an action is the zero-payload reset send. -/
def isResetSend : MainAction → Bool
  | MainAction.send t p => t = SBP_MSG_RESET && p = []
  | _ => false

/-- Modelled from the spec: a Registration of the Dispatch Table is a
(message-type-or-wildcard, callback) pair; none is the wildcard. The
callback is identified by a number. -/
structure Registration : Type where
  target : Option Nat
  cb : Nat
deriving DecidableEq

/-- Whether a registration matches a message type: registered for exactly
that type, or a wildcard registration. -/
def Registration.matches (r : Registration) (msgType : Nat) : Bool :=
  r.target = none || r.target = some msgType

/-- Modelled from the spec: dispatch(message) invokes every callback whose
registration is for the type of the message or is a wildcard,
synchronously and sequentially, in registration order. The result is the
sequence of invoked callbacks. -/
def dispatch (regs : List Registration) (msgType : Nat) : List Nat :=
  (regs.filter (fun r => r.matches msgType)).map Registration.cb

/-- Modelled from the spec: a decoded message as seen by the dispatch
layer, reduced to its type code (dispatch routes on type only). The full
event stream of a connection: messages are dispatched in the order their
frames were decoded, each producing its dispatch sequence of (message
index, callback) invocation events. -/
def dispatchStream (regs : List Registration) : List Nat → List (Nat × Nat)
  | [] => []
  | t :: rest =>
    (dispatch regs t).map (fun c => (t, c)) ++ dispatchStream regs rest

/-- Modelled from the spec: a decoded protocol Message, with an integer
type code, a sender tag, and an opaque payload of bytes. -/
structure Message : Type where
  msgType : Nat
  sender : Nat
  payload : List Nat
deriving DecidableEq

/-- Modelled from the spec: the buffering states of the Frame Decoder,
AWAITING_HEADER, AWAITING_LENGTH, AWAITING_PAYLOAD, AWAITING_CHECKSUM,
each carrying the bytes buffered so far. The header is a sync byte
followed by two type bytes and two sender bytes, little endian. -/
inductive DecState : Type
  | awaitingHeader (buf : List Nat)
  | awaitingLength (msgType sender : Nat)
  | awaitingPayload (msgType sender len : Nat) (buf : List Nat)
  | awaitingChecksum (msgType sender : Nat) (payload : List Nat) (buf : List Nat)
deriving DecidableEq

/-- Initial state of the Frame Decoder: awaiting a header, empty buffer. -/
def decInit : DecState := DecState.awaitingHeader []

/-- Sync byte that opens every frame header. -/
def syncByte : Nat := 0x55

/-- Modelled from the spec: the spec fixes no particular checksum
algorithm, only that each frame carries an integrity checksum; an
additive 16-bit checksum over the frame bytes before it stands in. The
chunk-boundary theorem does not depend on this choice. -/
def frameChecksum (msgType sender : Nat) (payload : List Nat) : Nat :=
  (syncByte + msgType % 256 + msgType / 256 + sender % 256 + sender / 256
    + payload.length + payload.sum) % 65536

/-- Modelled from the spec: the Frame Decoder consumes one byte and
possibly emits one decoded Message (on a valid final checksum byte).
Bytes outside a frame are dropped until a sync byte; a frame whose
checksum fails is dropped whole and decoding resumes at the next
plausible frame boundary. -/
def decodeStep (s : DecState) (byte : Nat) : DecState × Option Message :=
  let b := byte % 256
  match s with
  | DecState.awaitingHeader buf =>
    match buf with
    | [] =>
      if b = syncByte then (DecState.awaitingHeader [b], none)
      else (DecState.awaitingHeader [], none)
    | _ =>
      let buf2 := buf ++ [b]
      if buf2.length = 5 then
        (DecState.awaitingLength (buf2.getD 1 0 + 256 * buf2.getD 2 0)
          (buf2.getD 3 0 + 256 * buf2.getD 4 0), none)
      else (DecState.awaitingHeader buf2, none)
  | DecState.awaitingLength t sn =>
    if b = 0 then (DecState.awaitingChecksum t sn [] [], none)
    else (DecState.awaitingPayload t sn b [], none)
  | DecState.awaitingPayload t sn len buf =>
    let buf2 := buf ++ [b]
    if buf2.length = len then (DecState.awaitingChecksum t sn buf2 [], none)
    else (DecState.awaitingPayload t sn len buf2, none)
  | DecState.awaitingChecksum t sn payload buf =>
    let buf2 := buf ++ [b]
    if buf2.length = 2 then
      if buf2.getD 0 0 + 256 * buf2.getD 1 0 = frameChecksum t sn payload then
        (DecState.awaitingHeader [], some ⟨t, sn, payload⟩)
      else (DecState.awaitingHeader [], none)
    else (DecState.awaitingChecksum t sn payload buf2, none)

/-- Modelled from the spec: feed(bytes) accepts an incremental byte chunk,
threads the buffering state through it byte by byte, and yields every
complete, checksum-valid frame found, in order. -/
def feed (s : DecState) : List Nat → DecState × List Message
  | [] => (s, [])
  | b :: rest =>
    let p := decodeStep s b
    let q := feed p.1 rest
    (q.1, p.2.toList ++ q.2)

/-- Feeding a sequence of chunks one after the other, accumulating the
decoded messages in order. -/
def feedChunks (s : DecState) : List (List Nat) → DecState × List Message
  | [] => (s, [])
  | c :: cs =>
    let p := feed s c
    let q := feedChunks p.1 cs
    (q.1, p.2 ++ q.2)

/-- Modelled from the spec: states of the Heartbeat Watchdog,
UNARMED, ARMED, EXPIRED. -/
inductive WdMode : Type
  | unarmed
  | armed
  | expired
deriving DecidableEq

/-- Modelled from the spec: Watchdog state is a mode, the last-reset
timestamp, and the armed interval. -/
structure Wd : Type where
  mode : WdMode
  lastReset : Nat
  interval : Nat
deriving DecidableEq

/-- Modelled from the spec: arm(interval) starts the watchdog at the
current time. -/
def Wd.arm (interval now : Nat) : Wd :=
  ⟨WdMode.armed, now, interval⟩

/-- Events the Watchdog observes: a heartbeat message at a time, or its
timer checking the clock at a time. -/
inductive WdEvent : Type
  | heartbeat (now : Nat)
  | tick (now : Nat)
deriving DecidableEq

/-- Modelled from the spec: every observed heartbeat resets the timer
without changing the state; if the timer elapses with no reset while
armed, the state becomes EXPIRED and the alarm fires (the Bool); once
EXPIRED nothing fires again without an explicit re-arm. -/
def wdStep (w : Wd) : WdEvent → Wd × Bool
  | WdEvent.heartbeat now =>
    if w.mode = WdMode.armed then ({ w with lastReset := now }, false)
    else (w, false)
  | WdEvent.tick now =>
    if w.mode = WdMode.armed ∧ w.lastReset + w.interval ≤ now then
      ({ w with mode := WdMode.expired }, true)
    else (w, false)

/-- Run the Watchdog over a finite event sequence, counting how many
times the alarm callback is invoked. -/
def wdRun : Wd → List WdEvent → Wd × Nat
  | w, [] => (w, 0)
  | w, e :: rest =>
    let p := wdStep w e
    let q := wdRun p.1 rest
    (q.1, (if p.2 then 1 else 0) + q.2)

lemma sessionStep_none_ne (o : Obs) :
    sessionStep none o ≠ some ExitReason.timerExpired := by
  rcases o with ⟨i, n, a⟩
  cases i <;> cases a <;> simp [sessionStep]

lemma sessionRun_none (obs : List Obs) (r : ExitReason)
    (h : sessionRun none obs = some r) : r ≠ ExitReason.timerExpired := by
  induction obs with
  | nil => simp [sessionRun] at h
  | cons o rest ih =>
    rw [sessionRun] at h
    rcases hs : sessionStep none o with _ | r2
    · rw [hs] at h
      exact ih h
    · rw [hs] at h
      cases h
      intro hr
      rw [hr] at hs
      exact sessionStep_none_ne o hs

/-- C8: get_driver selects exactly one of two transports: with the FTDI
flag, an FTDI driver built from the baud rate only, the port argument
having no influence; otherwise a serial driver built from the port and
the baud rate. -/
theorem C8_driver_selection :
    ∀ (port port2 : String) (baud : Nat),
      get_driver true port baud = Driver.pyFTDI baud
      ∧ get_driver false port baud = Driver.pySerial port baud
      ∧ get_driver true port baud = get_driver true port2 baud := by
  intro port port2 baud
  exact ⟨rfl, rfl, rfl⟩

/-- C10: get_logger returns the null logger, which persists nothing,
unless logging is enabled, in which case it returns a JSON logger on the
given file with the default mode; get_append_logger returns the null
logger when no filename is given and otherwise a JSON logger opened in
append mode carrying the caller-supplied tags. -/
theorem C10_logger_selection :
    (∀ fn, get_logger false fn = Logger.nullLogger)
    ∧ (∀ ms, Logger.persists Logger.nullLogger ms = [])
    ∧ (∀ fn, get_logger true fn = Logger.jsonLogger fn LogMode.defaultMode none)
    ∧ (∀ tags, get_append_logger none tags = Logger.nullLogger)
    ∧ (∀ fn tags, fn ≠ "" →
        get_append_logger (some fn) tags = Logger.jsonLogger fn LogMode.append tags) := by
  refine ⟨fun fn => rfl, fun ms => rfl, fun fn => rfl, fun tags => rfl, fun fn tags h => ?_⟩
  simp [get_append_logger, h]

/-- Witness for C10 at a concrete filename and tag. -/
theorem C10_logger_selection_witness :
    get_append_logger (some "out.json") (some "tag")
      = Logger.jsonLogger "out.json" LogMode.append (some "tag") :=
  C10_logger_selection.2.2.2.2 "out.json" (some "tag") (by decide)

/-- C2: when the session loop of main terminates, the exit code is 0
exactly when it terminated by timer expiry, which presupposes a
configured timeout; interrupt and thread death both exit with code 1. -/
theorem C2_exit_codes (expire : Option Nat) (obs : List Obs) (r : ExitReason)
    (h : sessionRun expire obs = some r) :
    (exitCode r = 0 ↔ r = ExitReason.timerExpired)
    ∧ (r = ExitReason.timerExpired → ∃ e, expire = some e)
    ∧ (r = ExitReason.interrupted ∨ r = ExitReason.threadDied → exitCode r = 1) := by
  refine ⟨?_, ?_, ?_⟩
  · cases r <;> simp [exitCode]
  · intro hr
    cases expire with
    | some e => exact ⟨e, rfl⟩
    | none => exact absurd hr (sessionRun_none obs r h)
  · intro hr
    rcases hr with h1 | h1 <;> rw [h1] <;> rfl

/-- Witness for C2: a run with a configured, already-expired timeout ends
with timer expiry and exit code 0. -/
theorem C2_exit_codes_witness :
    (exitCode ExitReason.timerExpired = 0 ↔
      ExitReason.timerExpired = ExitReason.timerExpired)
    ∧ (ExitReason.timerExpired = ExitReason.timerExpired →
        ∃ e, (some 0 : Option Nat) = some e)
    ∧ (ExitReason.timerExpired = ExitReason.interrupted
        ∨ ExitReason.timerExpired = ExitReason.threadDied →
        exitCode ExitReason.timerExpired = 1) :=
  C2_exit_codes (some 0) [⟨false, 5, true⟩] ExitReason.timerExpired rfl

/-- C3: in every iteration of the session loop the exit conditions are
evaluated interrupt first, then deadline, then thread liveness; in
particular, when the deadline has passed and the thread is also dead, the
iteration exits with timer expiry (the success reason). -/
theorem C3_exit_priority (e : Nat) (o : Obs) :
    (∀ expire, o.interrupted = true →
      sessionStep expire o = some ExitReason.interrupted)
    ∧ (o.interrupted = false → e ≤ o.now →
      sessionStep (some e) o = some ExitReason.timerExpired)
    ∧ (o.interrupted = false → e ≤ o.now → o.alive = false →
      sessionStep (some e) o = some ExitReason.timerExpired)
    ∧ (o.interrupted = false → o.now < e → o.alive = false →
      sessionStep (some e) o = some ExitReason.threadDied)
    ∧ (o.interrupted = false → o.alive = false →
      sessionStep none o = some ExitReason.threadDied) := by
  refine ⟨?_, ?_, ?_, ?_, ?_⟩
  · intro expire hi
    simp [sessionStep, hi]
  · intro hi hle
    simp [sessionStep, hi, Nat.not_lt.mpr hle]
  · intro hi hle _
    simp [sessionStep, hi, Nat.not_lt.mpr hle]
  · intro hi hlt ha
    simp [sessionStep, hi, hlt, ha]
  · intro hi ha
    simp [sessionStep, hi, ha]

/-- Witness for C3: deadline passed and thread dead together still give
the timer-expiry exit. -/
theorem C3_exit_priority_witness :
    sessionStep (some 3) ⟨false, 7, false⟩ = some ExitReason.timerExpired :=
  (C3_exit_priority 3 ⟨false, 7, false⟩).2.2.1 rfl (by decide) rfl

/-- C9: with no timeout configured, the session loop has no successful
exit: any termination is an interrupt or thread death, with exit code 1. -/
theorem C9_no_timeout_no_success (obs : List Obs) (r : ExitReason)
    (h : sessionRun none obs = some r) :
    r ≠ ExitReason.timerExpired ∧ exitCode r = 1 := by
  have hne := sessionRun_none obs r h
  refine ⟨hne, ?_⟩
  cases r with
  | timerExpired => exact absurd rfl hne
  | interrupted => rfl
  | threadDied => rfl

/-- Witness for C9: without a timeout, a run that observes a dead thread
exits with code 1. -/
theorem C9_no_timeout_no_success_witness :
    ExitReason.threadDied ≠ ExitReason.timerExpired
    ∧ exitCode ExitReason.threadDied = 1 :=
  C9_no_timeout_no_success [⟨false, 0, false⟩] ExitReason.threadDied rfl

/-- C6 counterexample: the alarm path of watchdog_alarm does asynchronously
interrupt the main thread (thread.interrupt_main) and enqueues no polled
cancellation request, so the claim that it never directly manipulates the
main thread and only enqueues a polled request is false on the code. -/
theorem C6_counterexample :
    Effect.interruptMain ∈ watchdog_alarm
    ∧ Effect.enqueueCancel ∉ watchdog_alarm := by
  decide

/-- C6 amended: the watchdog alarm path requests cancellation by writing
to stderr and asynchronously raising KeyboardInterrupt in the main thread
via thread.interrupt_main, not by enqueuing a polled cancellation
request; the session loop observes the interrupt and exits with code 1. -/
theorem C6_amended :
    Effect.interruptMain ∈ watchdog_alarm
    ∧ Effect.enqueueCancel ∉ watchdog_alarm
    ∧ (∀ expire o, o.interrupted = true →
        sessionStep expire o = some ExitReason.interrupted
        ∧ exitCode ExitReason.interrupted = 1) := by
  refine ⟨by decide, by decide, ?_⟩
  intro expire o hi
  exact ⟨by simp [sessionStep, hi], rfl⟩

/-- Witness for the amended C6 at a concrete observation. -/
theorem C6_amended_witness :
    sessionStep none ⟨true, 0, true⟩ = some ExitReason.interrupted
    ∧ exitCode ExitReason.interrupted = 1 :=
  C6_amended.2.2 none ⟨true, 0, true⟩ rfl

/-- C7 counterexample: in the trace of main for a configuration
requesting a reset, the handler context (which starts the background
receive loop) is entered strictly before the reset message is sent, so
the reset send does not precede entry of the receive loop. -/
theorem C7_counterexample :
    ((mainTrace ⟨false, "", 0, false, "", none, none, true, none, none⟩).indexOf
        MainAction.startHandler
      < (mainTrace ⟨false, "", 0, false, "", none, none, true, none, none⟩).indexOf
        (MainAction.send SBP_MSG_RESET []))
    ∧ MainAction.startHandler
        ∈ mainTrace ⟨false, "", 0, false, "", none, none, true, none, none⟩
    ∧ MainAction.send SBP_MSG_RESET []
        ∈ mainTrace ⟨false, "", 0, false, "", none, none, true, none, none⟩ := by
  decide

/-- C7 amended: when a reset is requested, main sends exactly one
zero-payload reset message, after the driver is opened and the handler
context (hence the background receive loop) is started, and before the
foreground session loop is entered; with no reset requested, no reset
message is sent at all. -/
theorem C7_reset_send (c : Config) :
    ((mainTrace c).filter isResetSend
      = if c.reset then [MainAction.send SBP_MSG_RESET []] else [])
    ∧ ((mainTrace c).takeWhile
        (fun a => a != MainAction.startHandler)).filter isResetSend = []
    ∧ (mainTrace c).getLast? = some MainAction.enterSessionLoop := by
  obtain ⟨ftdi, port, baud, log, logf, alf, tags, reset, wd, tmo⟩ := c
  cases reset <;> rcases wd with _ | w <;>
    simp [mainTrace, isResetSend, SBP_MSG_RESET, List.getLast?]

/-- C1: dispatch invokes exactly the callbacks whose registration is for
the type of the message or is a wildcard; the invocation sequence is a
sublist of the registration sequence (registration order); each matching
registration is invoked exactly once; and the event stream of a
connection dispatches messages in arrival order (FIFO): the events of an
earlier batch all precede the events of a later batch. -/
theorem C1_dispatch (regs : List Registration) (t c : Nat) :
    (c ∈ dispatch regs t ↔
      ∃ r, r ∈ regs ∧ r.cb = c ∧ (r.target = none ∨ r.target = some t))
    ∧ List.Sublist (dispatch regs t) (regs.map Registration.cb)
    ∧ (dispatch regs t).count c
        = (regs.filter (fun r => r.cb == c && r.matches t)).length
    ∧ (∀ ts1 ts2 : List Nat,
        dispatchStream regs (ts1 ++ ts2)
          = dispatchStream regs ts1 ++ dispatchStream regs ts2) := by
  refine ⟨?_, ?_, ?_, ?_⟩
  · simp only [dispatch, List.mem_map, List.mem_filter, Registration.matches,
      Bool.or_eq_true, decide_eq_true_eq]
    constructor
    · rintro ⟨r, ⟨hr, hm⟩, hc⟩
      exact ⟨r, hr, hc, hm⟩
    · rintro ⟨r, hr, hc, hm⟩
      exact ⟨r, ⟨hr, hm⟩, hc⟩
  · exact List.Sublist.map Registration.cb (List.filter_sublist regs)
  · rw [dispatch, List.count, List.countP_map, List.countP_eq_length_filter,
      List.filter_filter]
    rfl
  · intro ts1 ts2
    induction ts1 with
    | nil => simp [dispatchStream]
    | cons x xs ih => simp [dispatchStream, ih, List.append_assoc]

/-- Witness for C1: a concrete registration list with a typed callback, a
wildcard, and a callback for another type; the wildcard callback is
dispatched for message type 5. -/
theorem C1_dispatch_witness :
    4 ∈ dispatch [⟨some 5, 3⟩, ⟨none, 4⟩, ⟨some 6, 9⟩] 5 :=
  (C1_dispatch [⟨some 5, 3⟩, ⟨none, 4⟩, ⟨some 6, 9⟩] 5 4).1.mpr
    ⟨⟨none, 4⟩, by decide, rfl, Or.inl rfl⟩

lemma feed_append (s : DecState) (xs ys : List Nat) :
    feed s (xs ++ ys)
      = ((feed (feed s xs).1 ys).1, (feed s xs).2 ++ (feed (feed s xs).1 ys).2) := by
  induction xs generalizing s with
  | nil => simp [feed]
  | cons b bs ih => simp [feed, ih, List.append_assoc]

lemma feedChunks_flatten (s : DecState) (cs : List (List Nat)) :
    feedChunks s cs = feed s cs.flatten := by
  induction cs generalizing s with
  | nil => simp [feedChunks, feed]
  | cons c cs ih => simp [feedChunks, feed_append, ih]

/-- C4: decoding is independent of chunk boundaries: feeding any two
chunk partitions of the same byte stream to the Frame Decoder leaves it
in the same state and yields the identical message sequence. -/
theorem C4_chunk_independence (s : DecState) (c1 c2 : List (List Nat))
    (h : c1.flatten = c2.flatten) :
    feedChunks s c1 = feedChunks s c2 := by
  rw [feedChunks_flatten, feedChunks_flatten, h]

/-- Witness for C4: one valid frame split at a chunk boundary in the
middle of its header decodes the same as fed whole; both decode exactly
the message with type 1, sender 2, payload [7]. -/
theorem C4_chunk_independence_witness :
    ([[85, 1, 0, 2], [0, 1, 7, 96, 0]] : List (List Nat)).flatten
        = ([[85, 1, 0, 2, 0, 1, 7, 96, 0]] : List (List Nat)).flatten
    ∧ feedChunks decInit [[85, 1, 0, 2], [0, 1, 7, 96, 0]]
        = feedChunks decInit [[85, 1, 0, 2, 0, 1, 7, 96, 0]]
    ∧ (feedChunks decInit [[85, 1, 0, 2, 0, 1, 7, 96, 0]]).2
        = [⟨1, 2, [7]⟩] :=
  ⟨by decide, C4_chunk_independence decInit _ _ (by decide), by decide⟩

lemma wdStep_not_armed (w : Wd) (e : WdEvent) (h : w.mode ≠ WdMode.armed) :
    wdStep w e = (w, false) := by
  cases e with
  | heartbeat now => simp [wdStep, h]
  | tick now => simp [wdStep, h]

lemma wdRun_not_armed (w : Wd) (evs : List WdEvent) (h : w.mode ≠ WdMode.armed) :
    wdRun w evs = (w, 0) := by
  induction evs with
  | nil => rfl
  | cons e rest ih => simp [wdRun, wdStep_not_armed w e h, ih]

lemma wdRun_expired (w : Wd) (evs : List WdEvent) (h : w.mode = WdMode.expired) :
    wdRun w evs = (w, 0) :=
  wdRun_not_armed w evs (by simp [h])

lemma wdStep_fired_mode (w : Wd) (e : WdEvent) (w2 : Wd)
    (h : wdStep w e = (w2, true)) : w2.mode = WdMode.expired := by
  cases e with
  | heartbeat now =>
    by_cases hm : w.mode = WdMode.armed <;> simp [wdStep, hm] at h
  | tick now =>
    by_cases hc : w.mode = WdMode.armed ∧ w.lastReset + w.interval ≤ now
    · rw [wdStep, if_pos hc] at h
      injection h with h1 h2
      rw [← h1]
    · rw [wdStep, if_neg hc] at h
      injection h with h1 h2
      cases h2

lemma wdRun_count_le_one (w : Wd) (evs : List WdEvent) : (wdRun w evs).2 ≤ 1 := by
  induction evs generalizing w with
  | nil => simp [wdRun]
  | cons e rest ih =>
    rcases he : wdStep w e with ⟨w1, fired⟩
    cases fired with
    | false => simpa [wdRun, he] using ih w1
    | true =>
      have hm : w1.mode = WdMode.expired := wdStep_fired_mode w e w1 he
      simp [wdRun, he, wdRun_expired w1 rest hm]

lemma wdRun_fires (w : Wd) (evs : List WdEvent)
    (harm : w.mode = WdMode.armed)
    (hnb : ∀ n, WdEvent.heartbeat n ∉ evs)
    (hex : ∃ n, WdEvent.tick n ∈ evs ∧ w.lastReset + w.interval ≤ n) :
    (wdRun w evs).2 = 1 := by
  induction evs generalizing w with
  | nil =>
    rcases hex with ⟨n, hn, _⟩
    cases hn
  | cons e rest ih =>
    rcases e with n0 | n0
    · exact absurd (List.mem_cons_self _ _) (hnb n0)
    · by_cases hc : w.lastReset + w.interval ≤ n0
      · have he : wdStep w (WdEvent.tick n0) = ({w with mode := WdMode.expired}, true) := by
          simp [wdStep, harm, hc]
        have hm : ({w with mode := WdMode.expired} : Wd).mode = WdMode.expired := rfl
        simp [wdRun, he, wdRun_expired _ rest hm]
      · have he : wdStep w (WdEvent.tick n0) = (w, false) := by
          simp [wdStep, hc]
        rcases hex with ⟨n, hn, hle⟩
        have hn2 : WdEvent.tick n ∈ rest := by
          rcases List.mem_cons.mp hn with h1 | h1
          · injection h1 with hnn
            exact absurd (hnn ▸ hle) hc
          · exact h1
        have hrest := ih w harm
          (fun n hm => hnb n (List.mem_cons_of_mem _ hm)) ⟨n, hn2, hle⟩
        simp [wdRun, he, hrest]

/-- C5: the Watchdog alarm fires at most once without an explicit re-arm;
a heartbeat observed while armed resets the last-reset time without
changing the armed state; and from an armed state, if no heartbeat is
observed and the timer checks the clock at or past the last reset plus
the interval, the alarm fires exactly once. -/
theorem C5_watchdog (w : Wd) (evs : List WdEvent) :
    (wdRun w evs).2 ≤ 1
    ∧ (∀ lr T now, wdStep ⟨WdMode.armed, lr, T⟩ (WdEvent.heartbeat now)
        = (⟨WdMode.armed, now, T⟩, false))
    ∧ (w.mode = WdMode.armed →
        (∀ n, WdEvent.heartbeat n ∉ evs) →
        (∃ n, WdEvent.tick n ∈ evs ∧ w.lastReset + w.interval ≤ n) →
        (wdRun w evs).2 = 1) := by
  refine ⟨wdRun_count_le_one w evs, ?_, wdRun_fires w evs⟩
  intro lr T now
  simp [wdStep]

/-- Witness for C5: a watchdog armed with interval 5 at time 0, seeing
ticks at 3, 5 and 9 and no heartbeat, fires exactly once. -/
theorem C5_watchdog_witness :
    (wdRun (Wd.arm 5 0) [WdEvent.tick 3, WdEvent.tick 5, WdEvent.tick 9]).2 = 1 :=
  (C5_watchdog (Wd.arm 5 0) [WdEvent.tick 3, WdEvent.tick 5, WdEvent.tick 9]).2.2
    rfl (by intro n; simp) ⟨5, by decide, by decide⟩
